import Mathlib

/-!
Shallow embedding of src/main.rs of the tablet-pc-rotation program.

Numeric model: the Rust code computes with f64. The program only performs
interval membership tests with rational bounds and one affine calibration
step on these values, so an f64 is modelled as `Option ℚ`: `some q` is a
finite value of rational magnitude q, and `none` models NaN (and the other
non-finite values), which fails every interval test and propagates through
arithmetic, exactly as NaN does in Rust.

External effects (xrandr, xinput) are modelled in writer style: every
effectful function returns the Result value together with the list of
commands it issued, and an oracle `ex : Cmd → Bool` decides whether each
issued command reports success.
-/

namespace TabletRotation

/-- Model of f64: `some q` is a finite value and `none` is NaN or another
non-finite value. -/
abbrev FVal := Option ℚ

/-- Addition on the f64 model: NaN propagates. -/
def fadd : FVal → FVal → FVal
  | some a, some b => some (a + b)
  | _, _ => none

/-- Multiplication on the f64 model: NaN propagates. -/
def fmul : FVal → FVal → FVal
  | some a, some b => some (a * b)
  | _, _ => none

/-- Model of the Rust range test `(lo..=hi).contains(v)`: false on NaN. -/
def range_contains (lo hi : ℚ) (v : FVal) : Bool :=
  match v with
  | none => false
  | some q => decide (lo ≤ q) && decide (q ≤ hi)

/-- enum LaptopOrientation (src/main.rs lines 100 to 112). -/
inductive LaptopOrientation
  | Normal
  | PortraitLeft
  | PortraitRight
  | Tent
  | Tablet
deriving DecidableEq

/-- struct Accelerometer (src/main.rs lines 169 to 173). -/
structure Accelerometer where
  x : FVal
  y : FVal
  z : FVal
deriving DecidableEq

/-- fn normalize (src/main.rs lines 208 to 210): (value + offset) * scale. -/
def normalize (value scale offset : FVal) : FVal :=
  fmul (fadd value offset) scale

/-- Accelerometer::new (src/main.rs lines 176 to 182). -/
def Accelerometer.new (x y z scale offset : FVal) : Accelerometer :=
  { x := normalize x scale offset
    y := normalize y scale offset
    z := normalize z scale offset }

/-- Accelerometer::which_orientation (src/main.rs lines 189 to 204). -/
def Accelerometer.which_orientation (self : Accelerometer) : LaptopOrientation :=
  if range_contains (-11) (-5) self.x then .PortraitLeft
  else if range_contains 5 11 self.x then .PortraitRight
  else if range_contains (-11) (-7) self.z then .Tablet
  else if range_contains 7 11 self.y then .Tent
  else .Normal

/-- Substring test on char lists: true iff pat occurs contiguously in hay.
Model of the Rust method str::contains with a literal pattern. -/
def isSubListOf (pat hay : List Char) : Bool :=
  match hay with
  | [] => pat.isEmpty
  | c :: t => pat.isPrefixOf (c :: t) || isSubListOf pat t

/-- Lowercased character list of a string. Char.toLower maps exactly the
basic latin letters A to Z, matching the Rust method to_ascii_lowercase. -/
def lowerChars (s : String) : List Char :=
  s.data.map Char.toLower

/-- fn find_inputs (src/main.rs lines 255 to 266). -/
def find_inputs (inputs to_find : List String) : List String :=
  inputs.filter (fun device =>
    to_find.any (fun find_me => isSubListOf (lowerChars find_me) (lowerChars device)))

/-- An external command issued through Command::new in the Rust code. -/
inductive Cmd
  | xrandr (orientation : String)
  | xinputToggle (action : String) (device : String)
  | xinputSetProp (device : String) (matrix : List Int)
deriving DecidableEq

/-- The two io::ErrorKind values the program constructs. -/
inductive ErrorKind
  | NotFound
  | Other
deriving DecidableEq

/-- Model of io::Error: kind and message. -/
structure IOErr where
  kind : ErrorKind
  msg : String
deriving DecidableEq

/-- fn call_xrandr (src/main.rs lines 219 to 230): issues the xrandr
command, returns Ok on success and an Other error carrying err_msg on
failure. -/
def call_xrandr (ex : Cmd → Bool) (orientation err_msg : String) :
    Except IOErr Unit × List Cmd :=
  (if ex (.xrandr orientation) then .ok () else .error ⟨.Other, err_msg⟩,
   [.xrandr orientation])

/-- fn rotate_screen_output (src/main.rs lines 233 to 251). -/
def rotate_screen_output (ex : Cmd → Bool) (orientation : LaptopOrientation) :
    Except IOErr Unit × List Cmd :=
  match orientation with
  | .Normal | .Tablet =>
      call_xrandr ex "normal" "xrandr couldn\x27t rotate screen in normal orientation"
  | .PortraitLeft => call_xrandr ex "right" "xrandr couldn\x27t rotate screen right"
  | .PortraitRight => call_xrandr ex "left" "xrandr couldn\x27t rotate screen to the left"
  | .Tent => call_xrandr ex "inverted" "xrandr couldn\x27t rotate screen 180°"

/-- fn toggle_inputs (src/main.rs lines 269 to 284): enables or disables
each device in turn, stopping with an error at the first failing command. -/
def toggle_inputs (ex : Cmd → Bool) (inputs : List String) (enable : Bool) :
    Except IOErr Unit × List Cmd :=
  match inputs with
  | [] => (.ok (), [])
  | input :: rest =>
      let action := if enable then "enable" else "disable"
      if ex (.xinputToggle action input) then
        let r := toggle_inputs ex rest enable
        (r.1, .xinputToggle action input :: r.2)
      else
        (.error ⟨.Other, "xinput couldn\x27t " ++ action ++ " " ++ input⟩,
         [.xinputToggle action input])

/-- The keyboard pattern list (src/main.rs line 289). -/
def keyboard_to_find : List String := ["AT Translated Set 2 keyboard"]

/-- fn toggle_keyboard (src/main.rs lines 287 to 305). -/
def toggle_keyboard (ex : Cmd → Bool) (orientation : LaptopOrientation)
    (inputs : List String) : Except IOErr Unit × List Cmd :=
  let keyboard := find_inputs inputs keyboard_to_find
  if keyboard.isEmpty then
    (.error ⟨.NotFound, "No keyboard found"⟩, [])
  else
    match orientation with
    | .Normal => toggle_inputs ex keyboard true
    | .PortraitLeft | .PortraitRight | .Tent | .Tablet =>
        toggle_inputs ex keyboard false

/-- The touch input pattern list (src/main.rs line 310). -/
def screen_inputs_to_find : List String := ["touchscreen", "wacom"]

/-- The coordinate transformation matrix chosen by fn rotate_screen_inputs
(src/main.rs lines 320 to 325), row major. -/
def transformation_matrix (orientation : LaptopOrientation) : List Int :=
  match orientation with
  | .Normal | .Tablet => [1, 0, 0, 0, 1, 0, 0, 0, 1]
  | .PortraitLeft => [0, 1, 0, -1, 0, 1, 0, 0, 1]
  | .PortraitRight => [0, -1, 1, 1, 0, 0, 0, 0, 1]
  | .Tent => [-1, 0, 1, 0, -1, 1, 0, 0, 1]

/-- The for loop of fn rotate_screen_inputs (src/main.rs lines 327 to 348):
sets the matrix on each device, stopping with an error at the first
failure. -/
def set_matrix_loop (ex : Cmd → Bool) (matrix : List Int)
    (screen_inputs : List String) : Except IOErr Unit × List Cmd :=
  match screen_inputs with
  | [] => (.ok (), [])
  | input :: rest =>
      if ex (.xinputSetProp input matrix) then
        let r := set_matrix_loop ex matrix rest
        (r.1, .xinputSetProp input matrix :: r.2)
      else
        (.error ⟨.Other, "xinput couldn\x27t rotate \x27" ++ input ++ "\x27"⟩,
         [.xinputSetProp input matrix])

/-- fn rotate_screen_inputs (src/main.rs lines 309 to 351). -/
def rotate_screen_inputs (ex : Cmd → Bool) (orientation : LaptopOrientation)
    (inputs : List String) : Except IOErr Unit × List Cmd :=
  let screen_inputs := find_inputs inputs screen_inputs_to_find
  if screen_inputs.isEmpty then
    (.error ⟨.NotFound, "no touchscreen or wacom inputs found"⟩, [])
  else
    set_matrix_loop ex (transformation_matrix orientation) screen_inputs

/-- The touchpad pattern list (src/main.rs line 355). -/
def touchpad_to_find : List String := ["Touchpad", "Trackpoint"]

/-- fn toggle_touchpads (src/main.rs lines 354 to 374). -/
def toggle_touchpads (ex : Cmd → Bool) (orientation : LaptopOrientation)
    (inputs : List String) : Except IOErr Unit × List Cmd :=
  let touchpads := find_inputs inputs touchpad_to_find
  if touchpads.isEmpty then
    (.error ⟨.NotFound, "no touchpad or trackpoint found"⟩, [])
  else
    match orientation with
    | .Normal => toggle_inputs ex touchpads true
    | .PortraitLeft | .PortraitRight | .Tent | .Tablet =>
        toggle_inputs ex touchpads false

/-- Result::and_then in writer style: the commands of both stages are kept
and the second stage runs only when the first succeeded. -/
def andThenW (a : Except IOErr Unit × List Cmd)
    (b : Unit → Except IOErr Unit × List Cmd) : Except IOErr Unit × List Cmd :=
  match a.1 with
  | .error e => (.error e, a.2)
  | .ok _ => ((b ()).1, a.2 ++ (b ()).2)

/-- The side effect chain of one tick of fn main (src/main.rs lines 402
to 405). -/
def tick (ex : Cmd → Bool) (current_orientation : LaptopOrientation)
    (inputs : List String) : Except IOErr Unit × List Cmd :=
  andThenW (andThenW (andThenW (rotate_screen_output ex current_orientation)
    (fun _ => toggle_keyboard ex current_orientation inputs))
    (fun _ => toggle_touchpads ex current_orientation inputs))
    (fun _ => rotate_screen_inputs ex current_orientation inputs)

/-- The four side effect steps of a tick, in the order of the chain. -/
inductive Step
  | display
  | keyboard
  | touchpad
  | touchinput
deriving DecidableEq

/-- The steps a tick attempts: each and_then stage runs only when every
earlier stage succeeded (src/main.rs lines 402 to 405). -/
def tick_steps (ex : Cmd → Bool) (current_orientation : LaptopOrientation)
    (inputs : List String) : List Step :=
  Step.display ::
    match (rotate_screen_output ex current_orientation).1 with
    | .error _ => []
    | .ok _ => Step.keyboard ::
        match (toggle_keyboard ex current_orientation inputs).1 with
        | .error _ => []
        | .ok _ => Step.touchpad ::
            match (toggle_touchpads ex current_orientation inputs).1 with
            | .error _ => []
            | .ok _ => [Step.touchinput]

/-- enum ReadError (src/main.rs lines 36 to 40). The payloads carried by
the Rust variants are never inspected by the program, so they are
dropped. -/
inductive ReadError
  | IOError
  | ParseError
deriving DecidableEq

/-- One sensor file together with the two std parsers applied to it. The
parsers belong to the Rust standard library, not to this repository, so
they are oracle fields: parseF64 returns none when f64 parsing fails (and
may return some none, a NaN); parseI32 returns none when i32 parsing
fails. -/
structure FileEnv where
  contents : Option String
  parseF64 : String → Option FVal
  parseI32 : String → Option Int

/-- fn read_value (src/main.rs lines 55 to 67). -/
def read_value (file : FileEnv) : Except ReadError FVal :=
  match file.contents with
  | none => .error .IOError
  | some raw =>
      match file.parseF64 raw.trim with
      | some value => .ok value
      | none =>
          match file.parseI32 raw.trim with
          | some value => .ok (some (value : ℚ))
          | none => .error .ParseError

/-- The environment one iteration of fn main runs against: the five sensor
files, the device enumeration result (none models a failure), and the
command success oracle. -/
structure MainEnv where
  accel_x_file : FileEnv
  accel_y_file : FileEnv
  accel_z_file : FileEnv
  scale_file : FileEnv
  offset_file : FileEnv
  devices : Option (List String)
  execOk : Cmd → Bool

/-- Outcome of one loop iteration: the loop reaches the next tick, or the
process terminates by panic. -/
inductive LoopOutcome
  | continues
  | panics
deriving DecidableEq

/-- One iteration of the loop in fn main (src/main.rs lines 382 to 410).
Every stage there is followed by unwrap, which terminates the process on
an error. -/
def main_iteration (w : MainEnv) : LoopOutcome :=
  match read_value w.accel_x_file with
  | .error _ => .panics
  | .ok accel_x =>
    match read_value w.accel_y_file with
    | .error _ => .panics
    | .ok accel_y =>
      match read_value w.accel_z_file with
      | .error _ => .panics
      | .ok accel_z =>
        match read_value w.scale_file with
        | .error _ => .panics
        | .ok scale =>
          match read_value w.offset_file with
          | .error _ => .panics
          | .ok offset =>
            match w.devices with
            | none => .panics
            | some inputs =>
              match (tick w.execOk
                  ((Accelerometer.new accel_x accel_y accel_z scale
                    offset).which_orientation) inputs).1 with
              | .ok _ => .continues
              | .error _ => .panics

/-- Row major product of two 3 by 3 matrices given as 9 element lists. -/
def mat_mul3 (a b : List Int) : List Int :=
  [a.getD 0 0 * b.getD 0 0 + a.getD 1 0 * b.getD 3 0 + a.getD 2 0 * b.getD 6 0,
   a.getD 0 0 * b.getD 1 0 + a.getD 1 0 * b.getD 4 0 + a.getD 2 0 * b.getD 7 0,
   a.getD 0 0 * b.getD 2 0 + a.getD 1 0 * b.getD 5 0 + a.getD 2 0 * b.getD 8 0,
   a.getD 3 0 * b.getD 0 0 + a.getD 4 0 * b.getD 3 0 + a.getD 5 0 * b.getD 6 0,
   a.getD 3 0 * b.getD 1 0 + a.getD 4 0 * b.getD 4 0 + a.getD 5 0 * b.getD 7 0,
   a.getD 3 0 * b.getD 2 0 + a.getD 4 0 * b.getD 5 0 + a.getD 5 0 * b.getD 8 0,
   a.getD 6 0 * b.getD 0 0 + a.getD 7 0 * b.getD 3 0 + a.getD 8 0 * b.getD 6 0,
   a.getD 6 0 * b.getD 1 0 + a.getD 7 0 * b.getD 4 0 + a.getD 8 0 * b.getD 7 0,
   a.getD 6 0 * b.getD 2 0 + a.getD 7 0 * b.getD 5 0 + a.getD 8 0 * b.getD 8 0]

/-- A sensor file whose contents parse to the float zero. -/
def zero_file : FileEnv := ⟨some "0", fun _ => some (some 0), fun _ => none⟩

/-- A run environment with working sensors, an empty device list and every
command succeeding. -/
def no_device_env : MainEnv :=
  ⟨zero_file, zero_file, zero_file, zero_file, zero_file, some [], fun _ => true⟩

/-- The range test in propositional form. -/
theorem range_contains_iff (lo hi : ℚ) (v : FVal) :
    range_contains lo hi v = true ↔ ∃ q, v = some q ∧ lo ≤ q ∧ q ≤ hi := by
  cases v with
  | none => simp [range_contains]
  | some q => simp [range_contains, and_assoc]

/-- Claim C4: the touch input transform chosen for each orientation equals
the documented row major 3 by 3 matrix. -/
theorem transformation_matrix_as_documented :
    transformation_matrix .Normal = [1, 0, 0, 0, 1, 0, 0, 0, 1] ∧
    transformation_matrix .Tablet = [1, 0, 0, 0, 1, 0, 0, 0, 1] ∧
    transformation_matrix .PortraitLeft = [0, 1, 0, -1, 0, 1, 0, 0, 1] ∧
    transformation_matrix .PortraitRight = [0, -1, 1, 1, 0, 0, 0, 0, 1] ∧
    transformation_matrix .Tent = [-1, 0, 1, 0, -1, 1, 0, 0, 1] :=
  ⟨rfl, rfl, rfl, rfl, rfl⟩

/-- Claim C5: multiplying the transform of each orientation with the
transform of the inverse orientation yields the identity matrix. -/
theorem transformation_matrix_round_trip :
    mat_mul3 (transformation_matrix .PortraitLeft)
        (transformation_matrix .PortraitRight) = [1, 0, 0, 0, 1, 0, 0, 0, 1] ∧
    mat_mul3 (transformation_matrix .Tent) (transformation_matrix .Tent) =
      [1, 0, 0, 0, 1, 0, 0, 0, 1] ∧
    mat_mul3 (transformation_matrix .Normal) (transformation_matrix .Normal) =
      [1, 0, 0, 0, 1, 0, 0, 0, 1] ∧
    mat_mul3 (transformation_matrix .Tablet) (transformation_matrix .Tablet) =
      [1, 0, 0, 0, 1, 0, 0, 0, 1] := by
  refine ⟨?_, ?_, ?_, ?_⟩ <;> decide

/-- Claim C7: the xrandr orientation argument issued for each laptop
orientation follows the documented mapping. -/
theorem rotate_screen_output_mapping :
    ∀ ex : Cmd → Bool,
      (rotate_screen_output ex .Normal).2 = [Cmd.xrandr "normal"] ∧
      (rotate_screen_output ex .Tablet).2 = [Cmd.xrandr "normal"] ∧
      (rotate_screen_output ex .PortraitLeft).2 = [Cmd.xrandr "right"] ∧
      (rotate_screen_output ex .PortraitRight).2 = [Cmd.xrandr "left"] ∧
      (rotate_screen_output ex .Tent).2 = [Cmd.xrandr "inverted"] :=
  fun _ => ⟨rfl, rfl, rfl, rfl, rfl⟩

/-- Claim C10: a sample whose three coordinates are all NaN satisfies no
range test, so classification falls through to Normal. -/
theorem which_orientation_nan_is_normal :
    ∀ a : Accelerometer, a.x = none → a.y = none → a.z = none →
      a.which_orientation = .Normal := by
  intro a hx hy hz
  simp [Accelerometer.which_orientation, range_contains, hx, hy, hz]

/-- Witness for claim C10 at the all NaN sample. -/
theorem which_orientation_nan_is_normal_witness :
    (Accelerometer.mk none none none).which_orientation = .Normal :=
  which_orientation_nan_is_normal ⟨none, none, none⟩ rfl rfl rfl

/-- Claim C2: which_orientation returns the first matching case of the
fixed order PortraitLeft on x in [-11, -5], PortraitRight on x in [5, 11],
Tablet on z in [-11, -7], Tent on y in [7, 11], Normal otherwise; the
first two cases are determined by x alone. -/
theorem which_orientation_first_match :
    ∀ a : Accelerometer,
      ((∃ q, a.x = some q ∧ -11 ≤ q ∧ q ≤ -5) →
        a.which_orientation = .PortraitLeft) ∧
      (¬ (∃ q, a.x = some q ∧ -11 ≤ q ∧ q ≤ -5) →
        (∃ q, a.x = some q ∧ 5 ≤ q ∧ q ≤ 11) →
        a.which_orientation = .PortraitRight) ∧
      (¬ (∃ q, a.x = some q ∧ -11 ≤ q ∧ q ≤ -5) →
        ¬ (∃ q, a.x = some q ∧ 5 ≤ q ∧ q ≤ 11) →
        (∃ q, a.z = some q ∧ -11 ≤ q ∧ q ≤ -7) →
        a.which_orientation = .Tablet) ∧
      (¬ (∃ q, a.x = some q ∧ -11 ≤ q ∧ q ≤ -5) →
        ¬ (∃ q, a.x = some q ∧ 5 ≤ q ∧ q ≤ 11) →
        ¬ (∃ q, a.z = some q ∧ -11 ≤ q ∧ q ≤ -7) →
        (∃ q, a.y = some q ∧ 7 ≤ q ∧ q ≤ 11) →
        a.which_orientation = .Tent) ∧
      (¬ (∃ q, a.x = some q ∧ -11 ≤ q ∧ q ≤ -5) →
        ¬ (∃ q, a.x = some q ∧ 5 ≤ q ∧ q ≤ 11) →
        ¬ (∃ q, a.z = some q ∧ -11 ≤ q ∧ q ≤ -7) →
        ¬ (∃ q, a.y = some q ∧ 7 ≤ q ∧ q ≤ 11) →
        a.which_orientation = .Normal) := by
  intro a
  have hx1 := range_contains_iff (-11) (-5) a.x
  have hx2 := range_contains_iff 5 11 a.x
  have hz := range_contains_iff (-11) (-7) a.z
  have hy := range_contains_iff 7 11 a.y
  refine ⟨?_, ?_, ?_, ?_, ?_⟩
  · intro h1
    simp [Accelerometer.which_orientation, hx1.mpr h1]
  · intro h1 h2
    have e1 : range_contains (-11) (-5) a.x = false :=
      Bool.eq_false_iff.mpr (fun hc => h1 (hx1.mp hc))
    simp [Accelerometer.which_orientation, e1, hx2.mpr h2]
  · intro h1 h2 h3
    have e1 : range_contains (-11) (-5) a.x = false :=
      Bool.eq_false_iff.mpr (fun hc => h1 (hx1.mp hc))
    have e2 : range_contains 5 11 a.x = false :=
      Bool.eq_false_iff.mpr (fun hc => h2 (hx2.mp hc))
    simp [Accelerometer.which_orientation, e1, e2, hz.mpr h3]
  · intro h1 h2 h3 h4
    have e1 : range_contains (-11) (-5) a.x = false :=
      Bool.eq_false_iff.mpr (fun hc => h1 (hx1.mp hc))
    have e2 : range_contains 5 11 a.x = false :=
      Bool.eq_false_iff.mpr (fun hc => h2 (hx2.mp hc))
    have e3 : range_contains (-11) (-7) a.z = false :=
      Bool.eq_false_iff.mpr (fun hc => h3 (hz.mp hc))
    simp [Accelerometer.which_orientation, e1, e2, e3, hy.mpr h4]
  · intro h1 h2 h3 h4
    have e1 : range_contains (-11) (-5) a.x = false :=
      Bool.eq_false_iff.mpr (fun hc => h1 (hx1.mp hc))
    have e2 : range_contains 5 11 a.x = false :=
      Bool.eq_false_iff.mpr (fun hc => h2 (hx2.mp hc))
    have e3 : range_contains (-11) (-7) a.z = false :=
      Bool.eq_false_iff.mpr (fun hc => h3 (hz.mp hc))
    have e4 : range_contains 7 11 a.y = false :=
      Bool.eq_false_iff.mpr (fun hc => h4 (hy.mp hc))
    simp [Accelerometer.which_orientation, e1, e2, e3, e4]

/-- Witness for claim C2 at the sample x = -8, y = 0, z = 0. -/
theorem which_orientation_first_match_witness :
    (∃ q, (Accelerometer.mk (some (-8)) (some 0) (some 0)).x = some q ∧
      -11 ≤ q ∧ q ≤ -5) ∧
    (Accelerometer.mk (some (-8)) (some 0) (some 0)).which_orientation =
      .PortraitLeft :=
  ⟨⟨-8, rfl, by norm_num, by norm_num⟩,
   (which_orientation_first_match ⟨some (-8), some 0, some 0⟩).1
     ⟨-8, rfl, by norm_num, by norm_num⟩⟩

/-- Claim C8: find_inputs keeps exactly the devices of which some pattern
is a case insensitive substring, preserves the order of the input list,
and behaves as documented on the two concrete examples. -/
theorem find_inputs_spec :
    (∀ inputs to_find : List String,
      List.Sublist (find_inputs inputs to_find) inputs) ∧
    (∀ (inputs to_find : List String) (d : String),
      d ∈ find_inputs inputs to_find ↔
        d ∈ inputs ∧ to_find.any
          (fun find_me => isSubListOf (lowerChars find_me) (lowerChars d)) = true) ∧
    find_inputs ["My TouchPad Device"] ["touchpad"] = ["My TouchPad Device"] ∧
    find_inputs ["Foo"] ["touchpad"] = [] := by
  refine ⟨?_, ?_, ?_, ?_⟩
  · intro inputs to_find
    exact List.filter_sublist inputs
  · intro inputs to_find d
    simp [find_inputs, List.mem_filter]
  · decide
  · decide

/-- Unfolding of toggle_inputs on a nonempty device list. -/
theorem toggle_inputs_cons (ex : Cmd → Bool) (input : String)
    (rest : List String) (enable : Bool) :
    toggle_inputs ex (input :: rest) enable =
      if ex (Cmd.xinputToggle (if enable then "enable" else "disable") input) then
        ((toggle_inputs ex rest enable).1,
          Cmd.xinputToggle (if enable then "enable" else "disable") input ::
            (toggle_inputs ex rest enable).2)
      else
        (.error ⟨.Other, "xinput couldn\x27t " ++
            (if enable then "enable" else "disable") ++ " " ++ input⟩,
          [Cmd.xinputToggle (if enable then "enable" else "disable") input]) :=
  rfl

/-- Every toggle command issued by toggle_inputs carries the action chosen
by the enable flag. -/
theorem toggle_inputs_action (ex : Cmd → Bool) (lst : List String) :
    ∀ (enable : Bool) (a d : String),
      Cmd.xinputToggle a d ∈ (toggle_inputs ex lst enable).2 →
      a = (if enable then "enable" else "disable") := by
  induction lst with
  | nil =>
    intro enable a d h
    simp [toggle_inputs] at h
  | cons input rest ih =>
    intro enable a d h
    by_cases hex :
      ex (Cmd.xinputToggle (if enable then "enable" else "disable") input) = true
    · rw [toggle_inputs_cons, if_pos hex] at h
      rcases List.mem_cons.mp h with h3 | h4
      · injection h3 with ha hd
      · exact ih enable a d h4
    · rw [toggle_inputs_cons, if_neg hex] at h
      rcases List.mem_cons.mp h with h3 | h4
      · injection h3 with ha hd
      · simp at h4

/-- toggle_inputs always issues the toggle command for the first device. -/
theorem toggle_inputs_head (ex : Cmd → Bool) (input : String)
    (rest : List String) (enable : Bool) :
    Cmd.xinputToggle (if enable then "enable" else "disable") input ∈
      (toggle_inputs ex (input :: rest) enable).2 := by
  by_cases hex :
    ex (Cmd.xinputToggle (if enable then "enable" else "disable") input) = true
  · rw [toggle_inputs_cons, if_pos hex]
    exact List.mem_cons_self _ _
  · rw [toggle_inputs_cons, if_neg hex]
    exact List.mem_cons_self _ _

/-- Claim C6: every toggle command issued by the keyboard and touchpad
steps enables exactly when the orientation is Normal and disables for
every other orientation; when a matching device exists such a command is
issued. -/
theorem keyboard_touchpad_enabled_iff_normal :
    ∀ (ex : Cmd → Bool) (o : LaptopOrientation) (inputs : List String),
      (∀ a d : String,
        (Cmd.xinputToggle a d ∈ (toggle_keyboard ex o inputs).2 ∨
          Cmd.xinputToggle a d ∈ (toggle_touchpads ex o inputs).2) →
        ((o = .Normal → a = "enable") ∧ (o ≠ .Normal → a = "disable"))) ∧
      (find_inputs inputs keyboard_to_find ≠ [] →
        ∃ d, Cmd.xinputToggle (if o = .Normal then "enable" else "disable") d ∈
          (toggle_keyboard ex o inputs).2) ∧
      (find_inputs inputs touchpad_to_find ≠ [] →
        ∃ d, Cmd.xinputToggle (if o = .Normal then "enable" else "disable") d ∈
          (toggle_touchpads ex o inputs).2) := by
  intro ex o inputs
  refine ⟨?_, ?_, ?_⟩
  · intro a d h
    rcases h with h | h
    · simp only [toggle_keyboard] at h
      split at h
      · simp at h
      · cases o with
        | Normal =>
          have ha := toggle_inputs_action ex _ true a d h
          simp at ha
          exact ⟨fun _ => ha, fun hn => absurd rfl hn⟩
        | PortraitLeft =>
          have ha := toggle_inputs_action ex _ false a d h
          simp at ha
          exact ⟨(fun hno => nomatch hno), fun _ => ha⟩
        | PortraitRight =>
          have ha := toggle_inputs_action ex _ false a d h
          simp at ha
          exact ⟨(fun hno => nomatch hno), fun _ => ha⟩
        | Tent =>
          have ha := toggle_inputs_action ex _ false a d h
          simp at ha
          exact ⟨(fun hno => nomatch hno), fun _ => ha⟩
        | Tablet =>
          have ha := toggle_inputs_action ex _ false a d h
          simp at ha
          exact ⟨(fun hno => nomatch hno), fun _ => ha⟩
    · simp only [toggle_touchpads] at h
      split at h
      · simp at h
      · cases o with
        | Normal =>
          have ha := toggle_inputs_action ex _ true a d h
          simp at ha
          exact ⟨fun _ => ha, fun hn => absurd rfl hn⟩
        | PortraitLeft =>
          have ha := toggle_inputs_action ex _ false a d h
          simp at ha
          exact ⟨(fun hno => nomatch hno), fun _ => ha⟩
        | PortraitRight =>
          have ha := toggle_inputs_action ex _ false a d h
          simp at ha
          exact ⟨(fun hno => nomatch hno), fun _ => ha⟩
        | Tent =>
          have ha := toggle_inputs_action ex _ false a d h
          simp at ha
          exact ⟨(fun hno => nomatch hno), fun _ => ha⟩
        | Tablet =>
          have ha := toggle_inputs_action ex _ false a d h
          simp at ha
          exact ⟨(fun hno => nomatch hno), fun _ => ha⟩
  · intro hne
    obtain ⟨k, rest, hk⟩ := List.exists_cons_of_ne_nil hne
    refine ⟨k, ?_⟩
    simp only [toggle_keyboard, hk, List.isEmpty_cons, Bool.false_eq_true,
      if_false]
    cases o with
    | Normal => exact toggle_inputs_head ex k rest true
    | PortraitLeft => exact toggle_inputs_head ex k rest false
    | PortraitRight => exact toggle_inputs_head ex k rest false
    | Tent => exact toggle_inputs_head ex k rest false
    | Tablet => exact toggle_inputs_head ex k rest false
  · intro hne
    obtain ⟨k, rest, hk⟩ := List.exists_cons_of_ne_nil hne
    refine ⟨k, ?_⟩
    simp only [toggle_touchpads, hk, List.isEmpty_cons, Bool.false_eq_true,
      if_false]
    cases o with
    | Normal => exact toggle_inputs_head ex k rest true
    | PortraitLeft => exact toggle_inputs_head ex k rest false
    | PortraitRight => exact toggle_inputs_head ex k rest false
    | Tent => exact toggle_inputs_head ex k rest false
    | Tablet => exact toggle_inputs_head ex k rest false

/-- Witness for claim C6: in Tablet orientation a disable command is
issued for the matched touchpad. -/
theorem keyboard_touchpad_enabled_iff_normal_witness :
    ∃ d, Cmd.xinputToggle
        (if LaptopOrientation.Tablet = .Normal then "enable" else "disable") d ∈
      (toggle_touchpads (fun _ => true) .Tablet ["My Touchpad"]).2 :=
  (keyboard_touchpad_enabled_iff_normal (fun _ => true) .Tablet
    ["My Touchpad"]).2.2 (by decide)

/-- and_then propagates the first error. -/
theorem andThenW_fst_error {a : Except IOErr Unit × List Cmd}
    {b : Unit → Except IOErr Unit × List Cmd} {e : IOErr}
    (h : a.1 = .error e) : (andThenW a b).1 = .error e := by
  simp [andThenW, h]

/-- and_then runs the second stage after a success. -/
theorem andThenW_fst_ok {a : Except IOErr Unit × List Cmd}
    {b : Unit → Except IOErr Unit × List Cmd}
    (h : a.1 = .ok ()) : (andThenW a b).1 = (b ()).1 := by
  simp [andThenW, h]

/-- Claim C3: a tick attempts the steps in the fixed order display,
keyboard, touchpad, touch input, stops at the first failing step and
returns its error; with no touchpad or trackpoint in the device list the
tick returns the touchpad not found error and never attempts the touch
input step. -/
theorem tick_fixed_order :
    ∀ (ex : Cmd → Bool) (o : LaptopOrientation) (inputs : List String),
      (∃ n, tick_steps ex o inputs =
        [Step.display, Step.keyboard, Step.touchpad, Step.touchinput].take n) ∧
      (∀ e : IOErr, (rotate_screen_output ex o).1 = .error e →
        (tick ex o inputs).1 = .error e ∧
          tick_steps ex o inputs = [Step.display]) ∧
      (∀ e : IOErr, (rotate_screen_output ex o).1 = .ok () →
        (toggle_keyboard ex o inputs).1 = .error e →
        (tick ex o inputs).1 = .error e ∧
          tick_steps ex o inputs = [Step.display, Step.keyboard]) ∧
      (∀ e : IOErr, (rotate_screen_output ex o).1 = .ok () →
        (toggle_keyboard ex o inputs).1 = .ok () →
        (toggle_touchpads ex o inputs).1 = .error e →
        (tick ex o inputs).1 = .error e ∧
          tick_steps ex o inputs = [Step.display, Step.keyboard, Step.touchpad]) ∧
      (find_inputs inputs touchpad_to_find = [] →
        (rotate_screen_output ex o).1 = .ok () →
        (toggle_keyboard ex o inputs).1 = .ok () →
        ((tick ex o inputs).1 =
            .error ⟨.NotFound, "no touchpad or trackpoint found"⟩ ∧
          Step.touchinput ∉ tick_steps ex o inputs)) := by
  intro ex o inputs
  have terr1 : ∀ e : IOErr, (rotate_screen_output ex o).1 = .error e →
      (tick ex o inputs).1 = .error e := by
    intro e h
    exact andThenW_fst_error (andThenW_fst_error (andThenW_fst_error h))
  have terr2 : ∀ e : IOErr, (rotate_screen_output ex o).1 = .ok () →
      (toggle_keyboard ex o inputs).1 = .error e →
      (tick ex o inputs).1 = .error e := by
    intro e h1 h2
    have hab : (andThenW (rotate_screen_output ex o)
        (fun _ => toggle_keyboard ex o inputs)).1 = .error e := by
      rw [andThenW_fst_ok h1]
      exact h2
    exact andThenW_fst_error (andThenW_fst_error hab)
  have terr3 : ∀ e : IOErr, (rotate_screen_output ex o).1 = .ok () →
      (toggle_keyboard ex o inputs).1 = .ok () →
      (toggle_touchpads ex o inputs).1 = .error e →
      (tick ex o inputs).1 = .error e := by
    intro e h1 h2 h3
    have hab : (andThenW (rotate_screen_output ex o)
        (fun _ => toggle_keyboard ex o inputs)).1 = .ok () := by
      rw [andThenW_fst_ok h1]
      exact h2
    have habc : (andThenW (andThenW (rotate_screen_output ex o)
        (fun _ => toggle_keyboard ex o inputs))
        (fun _ => toggle_touchpads ex o inputs)).1 = .error e := by
      rw [andThenW_fst_ok hab]
      exact h3
    exact andThenW_fst_error habc
  have tr1 : ∀ e : IOErr, (rotate_screen_output ex o).1 = .error e →
      tick_steps ex o inputs = [Step.display] := by
    intro e h
    simp [tick_steps, h]
  have tr2 : (rotate_screen_output ex o).1 = .ok () → ∀ e : IOErr,
      (toggle_keyboard ex o inputs).1 = .error e →
      tick_steps ex o inputs = [Step.display, Step.keyboard] := by
    intro h1 e h2
    simp [tick_steps, h1, h2]
  have tr3 : (rotate_screen_output ex o).1 = .ok () →
      (toggle_keyboard ex o inputs).1 = .ok () → ∀ e : IOErr,
      (toggle_touchpads ex o inputs).1 = .error e →
      tick_steps ex o inputs = [Step.display, Step.keyboard, Step.touchpad] := by
    intro h1 h2 e h3
    simp [tick_steps, h1, h2, h3]
  have hsteps : ∃ n, tick_steps ex o inputs =
      [Step.display, Step.keyboard, Step.touchpad, Step.touchinput].take n := by
    cases h1 : (rotate_screen_output ex o).1 with
    | error e => exact ⟨1, by simp [tick_steps, h1]⟩
    | ok u =>
      cases u
      cases h2 : (toggle_keyboard ex o inputs).1 with
      | error e => exact ⟨2, by simp [tick_steps, h1, h2]⟩
      | ok u2 =>
        cases u2
        cases h3 : (toggle_touchpads ex o inputs).1 with
        | error e => exact ⟨3, by simp [tick_steps, h1, h2, h3]⟩
        | ok u3 =>
          cases u3
          exact ⟨4, by simp [tick_steps, h1, h2, h3]⟩
  have tpe : find_inputs inputs touchpad_to_find = [] →
      (toggle_touchpads ex o inputs).1 =
        .error ⟨.NotFound, "no touchpad or trackpoint found"⟩ := by
    intro hft
    simp [toggle_touchpads, hft]
  refine ⟨hsteps, ?_, ?_, ?_, ?_⟩
  · intro e h
    exact ⟨terr1 e h, tr1 e h⟩
  · intro e h1 h2
    exact ⟨terr2 e h1 h2, tr2 h1 e h2⟩
  · intro e h1 h2 h3
    exact ⟨terr3 e h1 h2 h3, tr3 h1 h2 e h3⟩
  · intro hft h1 h2
    have h3 := tpe hft
    refine ⟨terr3 _ h1 h2 h3, ?_⟩
    rw [tr3 h1 h2 _ h3]
    decide

/-- Witness for claim C3: one keyboard device, all commands succeeding, no
touchpad in the list: the tick returns the touchpad not found error and
the touch input step is absent from the attempted steps. -/
theorem tick_fixed_order_witness :
    (tick (fun _ => true) .Tablet ["AT Translated Set 2 keyboard"]).1 =
      .error ⟨.NotFound, "no touchpad or trackpoint found"⟩ ∧
    Step.touchinput ∉
      tick_steps (fun _ => true) .Tablet ["AT Translated Set 2 keyboard"] :=
  (tick_fixed_order (fun _ => true) .Tablet
    ["AT Translated Set 2 keyboard"]).2.2.2.2 rfl rfl rfl

/-- Claim C9: read_value parses the trimmed contents as f64, falls back to
the i32 parse, errors exactly when the file is unreadable or neither parse
succeeds, and on success returns the parsed value. -/
theorem read_value_spec :
    ∀ file : FileEnv,
      ((∃ e, read_value file = .error e) ↔
        (file.contents = none ∨
          ∃ raw, file.contents = some raw ∧
            file.parseF64 raw.trim = none ∧ file.parseI32 raw.trim = none)) ∧
      (∀ v, read_value file = .ok v ↔
        ∃ raw, file.contents = some raw ∧
          (file.parseF64 raw.trim = some v ∨
            (file.parseF64 raw.trim = none ∧
              ∃ i : Int, file.parseI32 raw.trim = some i ∧ v = some (i : ℚ)))) := by
  intro file
  cases hc : file.contents with
  | none =>
    constructor
    · simp [read_value, hc]
    · intro v
      simp [read_value, hc]
  | some raw =>
    cases hf : file.parseF64 raw.trim with
    | some value =>
      constructor
      · simp [read_value, hc, hf]
      · intro v
        simp [read_value, hc, hf, eq_comm]
    | none =>
      cases hi : file.parseI32 raw.trim with
      | some i =>
        constructor
        · simp [read_value, hc, hf, hi]
        · intro v
          simp [read_value, hc, hf, hi, eq_comm]
      | none =>
        constructor
        · simp [read_value, hc, hf, hi]
        · intro v
          simp [read_value, hc, hf, hi]

/-- Witness for claim C9: a file whose contents parse as the float 3. -/
theorem read_value_spec_witness :
    read_value ⟨some "3", fun _ => some (some 3), fun _ => none⟩ =
      .ok (some 3) :=
  ((read_value_spec ⟨some "3", fun _ => some (some 3), fun _ => none⟩).2
    (some 3)).mpr ⟨"3", rfl, Or.inl rfl⟩

/-- Claim C1 (amended): when the side effect chain of a tick fails, the
unwrap in fn main panics and the process terminates; the loop does not
proceed to the next tick. -/
theorem tick_error_terminates :
    ∀ (w : MainEnv) (inputs : List String) (x y z s off : FVal) (e : IOErr),
      read_value w.accel_x_file = .ok x →
      read_value w.accel_y_file = .ok y →
      read_value w.accel_z_file = .ok z →
      read_value w.scale_file = .ok s →
      read_value w.offset_file = .ok off →
      w.devices = some inputs →
      (tick w.execOk ((Accelerometer.new x y z s off).which_orientation)
        inputs).1 = .error e →
      main_iteration w = .panics := by
  intro w inputs x y z s off e hx hy hz hs ho hd ht
  simp [main_iteration, hx, hy, hz, hs, ho, hd, ht]

/-- Witness for the amended claim C1 at the concrete environment with an
empty device list. -/
theorem tick_error_terminates_witness :
    main_iteration no_device_env = .panics := by
  have h0 : (Accelerometer.new (some 0) (some 0) (some 0) (some 0)
      (some 0)).which_orientation = LaptopOrientation.Normal := by
    norm_num [Accelerometer.new, normalize, fadd, fmul,
      Accelerometer.which_orientation, range_contains]
  have ht : (tick no_device_env.execOk
      ((Accelerometer.new (some 0) (some 0) (some 0) (some 0)
        (some 0)).which_orientation) []).1 =
      .error ⟨.NotFound, "No keyboard found"⟩ := by
    rw [h0]
    rfl
  exact tick_error_terminates no_device_env [] (some 0) (some 0) (some 0)
    (some 0) (some 0) ⟨.NotFound, "No keyboard found"⟩ rfl rfl rfl rfl rfl
    rfl ht

/-- Counterexample to claim C1 as stated: in this concrete environment the
tick fails with the keyboard not found error, yet the loop iteration does
not continue to the next tick; it panics. -/
theorem tick_error_not_continue_cex :
    (tick no_device_env.execOk
        ((Accelerometer.new (some 0) (some 0) (some 0) (some 0)
          (some 0)).which_orientation) []).1 =
      .error ⟨.NotFound, "No keyboard found"⟩ ∧
    main_iteration no_device_env ≠ .continues ∧
    main_iteration no_device_env = .panics := by
  have h0 : (Accelerometer.new (some 0) (some 0) (some 0) (some 0)
      (some 0)).which_orientation = LaptopOrientation.Normal := by
    norm_num [Accelerometer.new, normalize, fadd, fmul,
      Accelerometer.which_orientation, range_contains]
  have ht : (tick no_device_env.execOk
      ((Accelerometer.new (some 0) (some 0) (some 0) (some 0)
        (some 0)).which_orientation) []).1 =
      .error ⟨.NotFound, "No keyboard found"⟩ := by
    rw [h0]
    rfl
  have hm : main_iteration no_device_env = .panics := by
    show (match (tick no_device_env.execOk
        ((Accelerometer.new (some 0) (some 0) (some 0) (some 0)
          (some 0)).which_orientation) []).1 with
      | .ok _ => LoopOutcome.continues
      | .error _ => LoopOutcome.panics) = LoopOutcome.panics
    rw [ht]
  refine ⟨ht, ?_, hm⟩
  rw [hm]
  decide

end TabletRotation
